import Mathlib

/-!
Verification of the travel-ai-agent conversation/booking core.

This file embeds, in Lean, the parts of the repository that the verified
properties are about:

* `server/src/services/validation.service.js` — search validation
  (`validateFlightSearch`, `validateMultiCity`, helpers);
* `server/src/services/duffel.service.js` — offer filtering
  (`filterOffers`), order creation (`createOrder`), hold-order payment
  (`payForHoldOrder`), the detail-enrichment fan-out of `searchFlights`,
  and phone-number normalization (`formatPhoneNumber`);
* the diverse-offer selection (`selectDiverseOffers`);
* the `Conversation` mongoose model — stage machine (`updateStage`),
  `updateSearchParams`, `trackViewedOffer`, and the pre-save hook.

Conventions of the embedding:

* JavaScript `Date` values are embedded as `Int` millisecond timestamps;
  `new Date(x)` on an already-valid value is the identity, and the
  `isNaN` branches of the source are unreachable for such values.
* JavaScript strings are Lean `String`s; regular-expression tests are
  written out as character-level checks with the same language.
* Provider (Duffel API) calls are explicit: each service method returns,
  together with its result, the ordered list of provider calls it issued,
  and takes the provider's response behaviour as a function argument.
* Fields that are optional / possibly `undefined` in JS are `Option`s;
  JS falsiness of `""` and `0` is modelled explicitly where the source
  relies on it.
-/

namespace TravelAgent

/-- One validation error: `{ field, message }` objects pushed by
`validation.service.js`. -/
structure VError where
  field : String
  message : String
deriving DecidableEq

/-- Result shape of `validateFlightSearch`:
`{ errors, warnings, isValid: errors.length === 0 }`. -/
structure ValidationResult where
  errors : List VError
  warnings : List String
  isValid : Bool
deriving DecidableEq

/-- Passenger counts object `{ adults, children, infants }`.
The JS `Number.isInteger` guards are vacuous here because the fields are
embedded as integers. -/
structure PassengerCounts where
  adults : Int
  children : Int
  infants : Int
deriving DecidableEq

/-- A time window `{ from, to }` of `"HH:MM"` strings
(fields renamed `fromTime`/`toTime`; `from` is not a usable Lean name). -/
structure TimeRangeStr where
  fromTime : String
  toTime : String
deriving DecidableEq

/-- One multi-city segment. The validation loop reads
`currentSegment.date || currentSegment.departureDate`; both spellings are
embedded as the single field `date`. -/
structure MCSegment where
  origin : String
  destination : String
  date : Int
deriving DecidableEq

/-- The search-parameter object handed to `validateFlightSearch`.
Absent (`undefined`) members are `none`; absent string members are `""`
(matching JS falsiness of both). -/
structure FlightParams where
  type : String
  origin : String
  destination : String
  departureDate : Option Int
  returnDate : Option Int
  departureTime : Option TimeRangeStr
  arrivalTime : Option TimeRangeStr
  passengers : Option PassengerCounts
  maxConnections : Option Int
  additionalStops : Option (List MCSegment)
deriving DecidableEq

/-- `airportCodeRegex = /^[A-Z]{3}$/` — `isValidAirportCode`. -/
def isValidAirportCode (code : String) : Bool :=
  code.data.length == 3 && code.data.all (fun c => 'A' ≤ c && c ≤ 'Z')

/-- `timeRegex = /^([0-1]?[0-9]|2[0-3]):[0-5][0-9]$/`. -/
def timeRegexTest (s : String) : Bool :=
  match s.data with
  | [h, c, m1, m2] =>
      c == ':' && ('0' ≤ h && h ≤ '9') && ('0' ≤ m1 && m1 ≤ '5') && ('0' ≤ m2 && m2 ≤ '9')
  | [h1, h2, c, m1, m2] =>
      c == ':' &&
      ((('0' ≤ h1 && h1 ≤ '1') && ('0' ≤ h2 && h2 ≤ '9')) ||
        (h1 == '2' && ('0' ≤ h2 && h2 ≤ '3'))) &&
      ('0' ≤ m1 && m1 ≤ '5') && ('0' ≤ m2 && m2 ≤ '9')
  | _ => false

/-- JS `Number(s)` on a digit string (`Number("") = 0`); the `NaN` cases
never arise on the regex-validated inputs this is applied to. -/
def jsDigitsToNat (ds : List Char) : Nat :=
  ds.foldl (fun n c => n * 10 + (c.toNat - 48)) 0

/-- `timeToMinutes`: `time.split(':').map(Number)`, then
`hours*60 + minutes`.  On an `"HH:MM"` string the two split parts are the
characters before and after the colon. -/
def timeToMinutes (time : String) : Nat :=
  let hh := time.data.takeWhile (fun c => c ≠ ':')
  let mm := (time.data.dropWhile (fun c => c ≠ ':')).drop 1
  jsDigitsToNat hh * 60 + jsDigitsToNat mm

/-- `validateTimeRange(timeRange, fieldName)`. The missing-object guard of
the source is unreachable here: callers pass a present `TimeRangeStr`. -/
def validateTimeRange (tr : TimeRangeStr) (fieldName : String) : List VError :=
  if tr.fromTime.isEmpty || tr.toTime.isEmpty then
    [⟨fieldName, "Time range must have both from and to times"⟩]
  else
    let errs :=
      (if !timeRegexTest tr.fromTime then
        [⟨fieldName, "Invalid \"from\" time format. Use HH:MM format"⟩] else []) ++
      (if !timeRegexTest tr.toTime then
        [⟨fieldName, "Invalid \"to\" time format. Use HH:MM format"⟩] else [])
    if errs.isEmpty then
      if timeToMinutes tr.fromTime ≥ timeToMinutes tr.toTime then
        [⟨fieldName, "\"From\" time must be before \"to\" time"⟩]
      else []
    else errs

/-- `validateDates(params)`; `todayStart` is `new Date()` with
`setHours(0,0,0,0)` applied. -/
def validateDates (params : FlightParams) (todayStart : Int) : List VError :=
  match params.departureDate with
  | none => [⟨"departureDate", "Departure date is required"⟩]
  | some dep =>
    (if dep < todayStart then
      [⟨"departureDate", "Departure date must be in the future"⟩] else []) ++
    (if params.type = "round_trip" then
      match params.returnDate with
      | some ret =>
          if ret ≤ dep then
            [⟨"returnDate", "Return date must be after departure date"⟩]
          else []
      | none => []
    else [])

/-- `validatePassengers(passengers)`. -/
def validatePassengers (passengers : Option PassengerCounts) : List VError :=
  match passengers with
  | none => [⟨"passengers", "Passengers must be specified"⟩]
  | some pc =>
    (if pc.adults < 1 then
      [⟨"passengers.adults", "At least one adult passenger is required"⟩] else []) ++
    (if pc.children < 0 then
      [⟨"passengers.children", "Number of children must be a non-negative integer"⟩] else []) ++
    (if pc.infants < 0 then
      [⟨"passengers.infants", "Number of infants must be a non-negative integer"⟩] else []) ++
    (if pc.adults + pc.children + pc.infants > 9 then
      [⟨"passengers", "Maximum 9 passengers allowed"⟩] else []) ++
    (if pc.infants > pc.adults then
      [⟨"passengers.infants", "Number of infants cannot exceed number of adults"⟩] else [])

/-- The continuity error pushed for loop index `i`
(`Segment ${i+1} destination doesn't match segment ${i+2} origin`). -/
def continuityError (i : Nat) : VError :=
  ⟨"additionalStops",
    "Segment " ++ toString (i + 1) ++ " destination doesn't match segment " ++
      toString (i + 2) ++ " origin"⟩

/-- The date-sequence error pushed for loop index `i`
(`Segment ${i+2} departure must be after segment ${i+1}`). -/
def dateSequenceError (i : Nat) : VError :=
  ⟨"additionalStops",
    "Segment " ++ toString (i + 2) ++ " departure must be after segment " ++
      toString (i + 1)⟩

/-- Body of one iteration of the `validateMultiCity` loop at index `i`
over `allSegments` (the errors are pushed in source order: continuity,
origin code, destination code, date sequence).  Note the `i > 0` guard on
the continuity check, taken verbatim from the source: the joint between
the main segment (index 0) and the first additional stop is never
checked. -/
def segmentPairErrors (allSegments : List MCSegment) (i : Nat) : List VError :=
  match allSegments[i]?, allSegments[i + 1]? with
  | some cur, some nxt =>
    (if i > 0 ∧ cur.destination ≠ nxt.origin then [continuityError i] else []) ++
    (if !isValidAirportCode cur.origin then
      [⟨"additionalStops", "Invalid airport code in segment " ++ toString (i + 1) ++ " origin"⟩]
     else []) ++
    (if !isValidAirportCode cur.destination then
      [⟨"additionalStops", "Invalid airport code in segment " ++ toString (i + 1) ++ " destination"⟩]
     else []) ++
    (if nxt.date ≤ cur.date then [dateSequenceError i] else [])
  | _, _ => []

/-- The synthetic first segment of `allSegments`:
`{ origin: params.origin, destination: params.destination, date: params.departureDate }`.
An absent departure date becomes the JS `undefined`, embedded as `0`. -/
def mainSegment (params : FlightParams) : MCSegment :=
  { origin := params.origin, destination := params.destination,
    date := params.departureDate.getD 0 }

/-- `validateMultiCity(params)`. -/
def validateMultiCity (params : FlightParams) : List VError :=
  match params.additionalStops with
  | none => [⟨"additionalStops", "Additional stops are required for multi-city trips"⟩]
  | some stops =>
    if stops.isEmpty then
      [⟨"additionalStops", "At least one additional stop is required for multi-city trips"⟩]
    else
      let allSegments := mainSegment params :: stops
      (List.range (allSegments.length - 1)).flatMap (segmentPairErrors allSegments)

/-- `24 * 60 * 60 * 1000` milliseconds. -/
def dayMs : Int := 86400000

/-- JS `Math.ceil(a / b)` for integer `a` and positive integer `b`. -/
def jsCeilDiv (a b : Int) : Int := -((-a) / b)

/-- `validateFlightSearch(params)`.  `todayStart` is the zeroed-out start
of today used by `validateDates`; `now` is the `new Date()` used for the
warning computation. -/
def validateFlightSearch (params : FlightParams) (todayStart now : Int) :
    ValidationResult :=
  let errors :=
    (if params.origin.isEmpty then [⟨"origin", "Origin airport is required"⟩]
     else if !isValidAirportCode params.origin then
       [⟨"origin", "Invalid origin airport code format"⟩]
     else []) ++
    (if params.destination.isEmpty then
       [⟨"destination", "Destination airport is required"⟩]
     else if !isValidAirportCode params.destination then
       [⟨"destination", "Invalid destination airport code format"⟩]
     else []) ++
    (if params.origin = params.destination then
       [⟨"destination", "Origin and destination cannot be the same"⟩] else []) ++
    validateDates params todayStart ++
    (match params.departureTime with
     | some tr => validateTimeRange tr "departureTime"
     | none => []) ++
    (match params.arrivalTime with
     | some tr => validateTimeRange tr "arrivalTime"
     | none => []) ++
    (if params.type = "round_trip" ∧ params.returnDate = none then
       [⟨"returnDate", "Return date is required for round-trip flights"⟩] else []) ++
    (if params.type = "multi_city" then validateMultiCity params else []) ++
    validatePassengers params.passengers ++
    (match params.maxConnections with
     | some mc =>
         if mc < 0 ∨ mc > 3 then
           [⟨"maxConnections", "Max connections must be between 0 and 3"⟩]
         else []
     | none => [])
  let warnings :=
    match params.departureDate with
    | none => []
    | some dep =>
      let daysDiff := jsCeilDiv (dep - now) dayMs
      (if daysDiff < 2 then
        ["Booking very close to departure date may have limited availability"] else []) ++
      (if daysDiff > 365 then
        ["Booking more than a year in advance may have limited availability"] else [])
  { errors := errors, warnings := warnings, isValid := errors.isEmpty }

/-! ## Duffel service (`duffel.service.js`) -/

namespace Duffel

/-- An entry of `offer.available_services` (only the `id` is read by
`createOrder`). -/
structure AvailableServiceRef where
  id : String
deriving DecidableEq

/-- An entry of `offer.passengers` (only the `id` is read by
`createOrder`). -/
structure OfferPassengerRef where
  id : String
deriving DecidableEq

/-- The raw Duffel offer payload, restricted to the fields `createOrder`
reads.  Amounts stay provider strings, as on the wire. -/
structure RawOffer where
  id : String
  total_amount : String
  total_currency : String
  passengers : List OfferPassengerRef
  available_services : Option (List AvailableServiceRef)
deriving DecidableEq

/-- A booking-time passenger record as submitted to `createOrder`.
Optional JS members are `Option`; absent strings are `""`. -/
structure BookingPassenger where
  title : String
  firstName : String
  lastName : String
  gender : Option String
  email : String
  phoneNumber : String
  dateOfBirth : String
  passportNumber : Option String
  passportExpiry : String
  nationality : String
deriving DecidableEq

/-- `paymentDetails` for `createOrder` (only `.type` is read). -/
structure PaymentDetails where
  type : String
deriving DecidableEq

/-- `paymentDetails` for `payForHoldOrder`:
`{ type?, amount, currency }` (the amount reaches the wire via
`.toString()`, embedded as the string itself). -/
structure HoldPaymentDetails where
  type : Option String
  amount : String
  currency : String
deriving DecidableEq

/-- A requested service `{ id, quantity? }`. -/
structure ServiceSelection where
  id : String
  quantity : Option Nat
deriving DecidableEq

/-- A formatted identity document attached to an order passenger. -/
structure IdentityDocument where
  unique_identifier : String
  expires_on : Option String
  issuing_country_code : String
  type : String
deriving DecidableEq

/-- A formatted order passenger, as placed into `orderData.passengers`. -/
structure OrderPassenger where
  id : String
  phone_number : String
  email : String
  born_on : Option String
  title : String
  gender : String
  given_name : String
  family_name : String
  identity_documents : Option (List IdentityDocument)
deriving DecidableEq

/-- One entry of `orderData.payments`. -/
structure OrderPayment where
  type : String
  currency : String
  amount : String
deriving DecidableEq

/-- One entry of `orderData.services`. -/
structure OrderServiceSel where
  id : String
  quantity : Nat
deriving DecidableEq

/-- The body passed to `this.duffel.orders.create` (`services = []`
plays the role of the absent key). -/
structure OrderData where
  selected_offers : List String
  passengers : List OrderPassenger
  payments : List OrderPayment
  services : List OrderServiceSel
deriving DecidableEq

/-- A provider-side order, restricted to the fields read here. -/
structure RawOrder where
  id : String
  total_amount : String
  total_currency : String
deriving DecidableEq

/-- The body passed to `this.duffel.payments.create`. -/
structure PaymentRequest where
  order_id : String
  type : String
  amount : String
  currency : String
deriving DecidableEq

/-- A provider-side payment record. -/
structure PaymentRecord where
  id : String
deriving DecidableEq

/-- One outbound provider call.  Service methods return the ordered list
of calls they issued, so "no order mutation happened" is a statement
about this trace. -/
inductive ProviderCall where
  | offersGet (offerId : String)
  | ordersCreate (data : OrderData)
  | ordersGet (orderId : String)
  | paymentsCreate (req : PaymentRequest)
deriving DecidableEq

/-- Whether a provider call is the order-creation mutation. -/
def ProviderCall.isOrdersCreate : ProviderCall → Bool
  | .ordersCreate _ => true
  | _ => false

/-- `formatPhoneNumber` (defined inside `createOrder`):
`replace(/\D/g, '')`, then — since the cleaned string is digits-only, the
`startsWith('+')` test is evaluated on it — conditional `'31'` prefix for
≤ 10 digits, then a leading `'+'`. -/
def formatPhoneNumber (phoneNumber : String) : String :=
  if phoneNumber.isEmpty then ""
  else
    let cleaned : String := ⟨phoneNumber.data.filter Char.isDigit⟩
    -- `cleaned.startsWith('+')`
    if cleaned.data.head? == some '+' then cleaned
    else
      let cleaned := if cleaned.data.length ≤ 10 then "31" ++ cleaned else cleaned
      "+" ++ cleaned

/-- `/^\d{4}-\d{2}-\d{2}$/`. -/
def isIsoDateShape (s : String) : Bool :=
  match s.data with
  | [a, b, c, d, h1, e, f, h2, g, h] =>
      a.isDigit && b.isDigit && c.isDigit && d.isDigit && h1 == '-' &&
      e.isDigit && f.isDigit && h2 == '-' && g.isDigit && h.isDigit
  | _ => false

/-- The `formatDate` closure of `createOrder`.  Falsy input and the two
string fast paths are exact; the trailing `new Date(dateInput)` parse of
other notations is outside this embedding (this system always passes ISO
strings), so that branch yields `undefined` here. -/
def formatDateOrder (dateInput : String) : Option String :=
  if dateInput.isEmpty then none
  else if isIsoDateShape dateInput then some dateInput
  else if dateInput.data.contains 'T' then
    some ⟨dateInput.data.takeWhile (fun c => c ≠ 'T')⟩
  else none

/-- The gender-mapping chain of `createOrder`: explicit field first,
then title inference, else `'other'`. -/
def orderGender (passenger : BookingPassenger) : String :=
  if passenger.gender == some "male" || passenger.gender == some "m" then "m"
  else if passenger.gender == some "female" || passenger.gender == some "f" then "f"
  else if passenger.title == "Mr" then "m"
  else if ["Mrs", "Ms", "Miss"].contains passenger.title then "f"
  else "other"

/-- Formats one passenger against the offer-issued passenger id. -/
def formatOrderPassenger (offerPassengerId : String) (p : BookingPassenger) :
    OrderPassenger :=
  { id := offerPassengerId,
    phone_number := formatPhoneNumber p.phoneNumber,
    email := p.email,
    born_on := formatDateOrder p.dateOfBirth,
    title := p.title,
    gender := orderGender p,
    given_name := p.firstName,
    family_name := p.lastName,
    identity_documents :=
      match p.passportNumber with
      | some pn =>
          some [{ unique_identifier := pn,
                  expires_on := formatDateOrder p.passportExpiry,
                  issuing_country_code := p.nationality,
                  type := "passport" }]
      | none => none }

/-- The indexed `passengers.map((passenger, index) => ...)` of
`createOrder`, including its defensive in-loop throw when the index has
no matching offer passenger id. -/
def formatPassengersGo (idx : Nat) (offerPassengerIds : List String) :
    List BookingPassenger → Except String (List OrderPassenger)
  | [] => .ok []
  | p :: rest =>
    match offerPassengerIds[idx]? with
    | none => .error ("No matching passenger ID for passenger at index " ++ toString idx)
    | some pid =>
      match formatPassengersGo (idx + 1) offerPassengerIds rest with
      | .error e => .error e
      | .ok tail => .ok (formatOrderPassenger pid p :: tail)

/-- `createOrder(offerId, passengers, paymentDetails, services)`.
The provider is a pair of response functions (`offers.get`,
`orders.create`); the returned trace lists the calls issued in order. -/
def createOrder (getOffer : String → RawOffer)
    (ordersCreateResp : OrderData → RawOrder)
    (offerId : String) (passengers : List BookingPassenger)
    (paymentDetails : PaymentDetails) (services : List ServiceSelection) :
    Except String RawOrder × List ProviderCall :=
  -- `const offerResponse = await this.duffel.offers.get(offerId, ...)`
  let offer := getOffer offerId
  let readCalls := [ProviderCall.offersGet offerId]
  let exactAmount := offer.total_amount
  let currency := offer.total_currency
  -- service validation: silently drop ids not in `offer.available_services`
  let validServices : List ServiceSelection :=
    match offer.available_services with
    | some avail =>
        if services.isEmpty then []
        else
          let availableServiceIds := avail.map AvailableServiceRef.id
          services.filter (fun s => availableServiceIds.contains s.id)
    | none => []
  let offerPassengerIds := offer.passengers.map OfferPassengerRef.id
  if passengers.length ≠ offerPassengerIds.length then
    (.error ("Passenger count mismatch: expected " ++ toString offerPassengerIds.length ++
        ", got " ++ toString passengers.length), readCalls)
  else
    match formatPassengersGo 0 offerPassengerIds passengers with
    | .error e => (.error e, readCalls)
    | .ok formattedPassengers =>
      let formattedServices :=
        validServices.map (fun s => OrderServiceSel.mk s.id (s.quantity.getD 1))
      let paymentType := if paymentDetails.type = "card" then "balance" else paymentDetails.type
      let orderData : OrderData :=
        { selected_offers := [offerId],
          passengers := formattedPassengers,
          payments := [{ type := paymentType, currency := currency, amount := exactAmount }],
          services := formattedServices }
      (.ok (ordersCreateResp orderData), readCalls ++ [ProviderCall.ordersCreate orderData])

/-- `payForHoldOrder(orderId, paymentDetails)`: re-reads the order, then
creates a payment built exclusively from `paymentDetails`. -/
def payForHoldOrder (ordersGet : String → RawOrder)
    (paymentsCreate : PaymentRequest → PaymentRecord)
    (orderId : String) (paymentDetails : HoldPaymentDetails) :
    PaymentRecord × List ProviderCall :=
  -- `const order = await this.duffel.orders.get(orderId)` — fetched, but no
  -- field of it is read below.
  let _order := ordersGet orderId
  let req : PaymentRequest :=
    { order_id := orderId,
      type := paymentDetails.type.getD "balance",   -- `paymentDetails.type || 'balance'`
      amount := paymentDetails.amount,              -- `paymentDetails.amount.toString()`
      currency := paymentDetails.currency }
  (paymentsCreate req, [ProviderCall.ordersGet orderId, ProviderCall.paymentsCreate req])

/-- The detail-enrichment fan-out of `searchFlights`: one detail fetch per
offer, each failure caught locally and replaced by the basic offer.
`getOfferDetail` returns `none` exactly when the underlying fetch throws. -/
def enrichOffers (getOfferDetail : String → Option RawOffer)
    (offers : List RawOffer) : List RawOffer :=
  offers.map (fun offer =>
    match getOfferDetail offer.id with
    | some fullOffer => fullOffer
    | none => offer)

/-! ### Formatted offers and `filterOffers` -/

/-- A formatted airline descriptor (fields read by the filter engine). -/
structure FAirline where
  name : String
  iataCode : String
deriving DecidableEq

/-- A formatted segment (fields read by the filter engine). -/
structure FSegment where
  airline : FAirline
  flightNumber : String
deriving DecidableEq

/-- A formatted slice.  `departureDateTime` is the timestamp in minutes
since the epoch; `duration` is the human string (`"12h 30m"`), and
`durationMinutes` the parsed minute count stored by `formatOffers`. -/
structure FSlice where
  departureDateTime : Nat
  duration : String
  durationMinutes : Nat
  segments : List FSegment
deriving DecidableEq

/-- A formatted offer (fields read by filtering / diverse selection). -/
structure FOffer where
  id : String
  totalAmount : Int
  totalCurrency : String
  slices : List FSlice
deriving DecidableEq

/-- `new Date(t).getHours()` on a minutes-since-epoch timestamp, in a UTC
environment. -/
def dateGetHours (epochMinutes : Nat) : Nat :=
  epochMinutes / 60 % 24

/-- `offer.slices[0].departureDateTime`; the source assumes at least one
slice, so the empty case is a junk value. -/
def firstSliceDepartureMinutes (o : FOffer) : Nat :=
  match o.slices with
  | [] => 0
  | s :: _ => s.departureDateTime

/-- Scans for the first `"PT"` occurrence, as the unanchored JS regex
does. -/
def findPT : List Char → Option (List Char)
  | [] => none
  | 'P' :: 'T' :: rest => some rest
  | _ :: rest => findPT rest

/-- The part of `/PT(?:(\d+)H)?(?:(\d+)M)?/` after the literal `PT`
(`(\d+)H` needs at least one digit, else the group backtracks away). -/
def parseAfterPT (l : List Char) : Nat :=
  let ds := l.takeWhile Char.isDigit
  let rest := l.drop ds.length
  match rest with
  | 'H' :: rest2 =>
      if ds.isEmpty then 0
      else
        let hours := jsDigitsToNat ds
        let ds2 := rest2.takeWhile Char.isDigit
        (match rest2.drop ds2.length with
         | 'M' :: _ => if ds2.isEmpty then hours * 60 else hours * 60 + jsDigitsToNat ds2
         | _ => hours * 60)
  | 'M' :: _ => if ds.isEmpty then 0 else jsDigitsToNat ds
  | _ => 0

/-- `parseDurationToMinutes(duration)`: `0` for falsy input or when the
regex finds no `PT`. -/
def parseDurationToMinutes (duration : String) : Nat :=
  if duration.isEmpty then 0
  else
    match findPT duration.data with
    | some rest => parseAfterPT rest
    | none => 0

/-- `criteria.departureTime`: `{ from, to }` of `"HH:MM"` strings
(fields renamed; `from` is not a usable Lean name). -/
structure FilterTimeWindow where
  fromTime : String
  toTime : String
deriving DecidableEq

/-- `parseInt(x.split(':')[0])` on an `"HH:MM"` string: the digits before
the colon (`parseInt` reads the leading digit prefix; its `NaN` case is
not hit on these inputs). -/
def parseHourStr (s : String) : Nat :=
  jsDigitsToNat ((s.data.takeWhile (fun c => c ≠ ':')).takeWhile Char.isDigit)

/-- The filter/sort criteria accepted by `filterOffers`.  `none` is an
absent key; numeric keys guarded by JS truthiness also ignore `0`. -/
structure FilterCriteria where
  departureTime : Option FilterTimeWindow
  maxConnections : Option Int
  airlines : Option (List String)
  maxPrice : Option Int
  minPrice : Option Int
  maxDuration : Option Nat
  sort : Option String
deriving DecidableEq

/-- Sum of `parseDurationToMinutes(slice.duration)` over the offer's
slices (the duration filter and sorts re-parse the human string). -/
def offerTotalParsedDuration (o : FOffer) : Nat :=
  o.slices.foldl (fun total slice => total + parseDurationToMinutes slice.duration) 0

/-- The `switch (criteria.sort)` block; an unrecognized key sorts
nothing. -/
def applySort (sort : Option String) (l : List FOffer) : List FOffer :=
  match sort with
  | some "price_low" =>
      l.mergeSort (fun a b => decide (a.totalAmount ≤ b.totalAmount))
  | some "price_high" =>
      l.mergeSort (fun a b => decide (b.totalAmount ≤ a.totalAmount))
  | some "duration_short" =>
      l.mergeSort (fun a b => decide (offerTotalParsedDuration a ≤ offerTotalParsedDuration b))
  | some "duration_long" =>
      l.mergeSort (fun a b => decide (offerTotalParsedDuration b ≤ offerTotalParsedDuration a))
  | some "departure_early" =>
      l.mergeSort (fun a b => decide (firstSliceDepartureMinutes a ≤ firstSliceDepartureMinutes b))
  | some "departure_late" =>
      l.mergeSort (fun a b => decide (firstSliceDepartureMinutes b ≤ firstSliceDepartureMinutes a))
  | _ => l

/-- `filterOffers(offers, criteria)`: the filters in source order, then
the sort. -/
def filterOffers (offers : List FOffer) (criteria : FilterCriteria) : List FOffer :=
  let filtered := offers
  -- time-based filtering
  let filtered :=
    match criteria.departureTime with
    | some w =>
        filtered.filter (fun offer =>
          let hour := dateGetHours (firstSliceDepartureMinutes offer)
          let fromHour := parseHourStr w.fromTime
          let toHour := parseHourStr w.toTime
          if toHour < fromHour then
            -- handles overnight times like 23:00 to 05:00
            decide (hour ≥ fromHour) || decide (hour ≤ toHour)
          else
            decide (hour ≥ fromHour) && decide (hour ≤ toHour))
    | none => filtered
  -- connection filtering
  let filtered :=
    match criteria.maxConnections with
    | some mc =>
        filtered.filter (fun o =>
          o.slices.all (fun s => decide ((s.segments.length : Int) - 1 ≤ mc)))
    | none => filtered
  -- airline filtering
  let filtered :=
    match criteria.airlines with
    | some als =>
        if als.isEmpty then filtered
        else
          let airlineCodes := als.map String.toUpper
          filtered.filter (fun o =>
            o.slices.any (fun s =>
              s.segments.any (fun seg => airlineCodes.contains seg.airline.iataCode)))
    | none => filtered
  -- price filtering (`if (criteria.maxPrice)`: 0 is falsy)
  let filtered :=
    match criteria.maxPrice with
    | some mp =>
        if mp = 0 then filtered else filtered.filter (fun o => decide (o.totalAmount ≤ mp))
    | none => filtered
  let filtered :=
    match criteria.minPrice with
    | some mp =>
        if mp = 0 then filtered else filtered.filter (fun o => decide (mp ≤ o.totalAmount))
    | none => filtered
  -- duration filtering
  let filtered :=
    match criteria.maxDuration with
    | some md =>
        if md = 0 then filtered
        else filtered.filter (fun o => decide (offerTotalParsedDuration o ≤ md))
    | none => filtered
  applySort criteria.sort filtered

/-! ### Diverse selection (`selectDiverseOffers`) -/

/-- Total `slice.durationMinutes` of an offer (the diverse selection uses
the stored minute counts, not the human string). -/
def offerDurationMinutes (o : FOffer) : Nat :=
  o.slices.foldl (fun total slice => total + slice.durationMinutes) 0

/-- `selected.find(s => s.id === offer.id)` as a Boolean. -/
def hasOfferId (selected : List FOffer) (o : FOffer) : Bool :=
  selected.any (fun s => s.id == o.id)

/-- The trailing fill loop of `selectDiverseOffers`: walk the offers in
original order, appending unchosen ones until `count` is reached. -/
def fillRemaining (count : Nat) : List FOffer → List FOffer → List FOffer
  | [], selected => selected
  | o :: rest, selected =>
    if count ≤ selected.length then selected
    else if hasOfferId selected o then fillRemaining count rest selected
    else fillRemaining count rest (selected ++ [o])

/-- One `const u = sorted.find(o => !selected.find(s => s.id === o.id));
if (u) selected.push(u)` step of `selectDiverseOffers`. -/
def pickStep (sorted selected : List FOffer) : List FOffer :=
  match sorted.find? (fun o => !hasOfferId selected o) with
  | some u => selected ++ [u]
  | none => selected

/-- The seeding phase of `selectDiverseOffers`: cheapest offer
(`if (byPrice[0]) selected.push(byPrice[0])`), then the fastest not yet
chosen, then the earliest-departing not yet chosen. -/
def diverseSeed (offers : List FOffer) : List FOffer :=
  let byPrice := offers.mergeSort (fun a b => decide (a.totalAmount ≤ b.totalAmount))
  let byDuration :=
    offers.mergeSort (fun a b => decide (offerDurationMinutes a ≤ offerDurationMinutes b))
  let byTime :=
    offers.mergeSort
      (fun a b => decide (firstSliceDepartureMinutes a ≤ firstSliceDepartureMinutes b))
  let selected :=
    match byPrice.head? with
    | some p => [p]
    | none => []
  pickStep byTime (pickStep byDuration selected)

/-- `selectDiverseOffers(offers, count)`. -/
def selectDiverseOffers (offers : List FOffer) (count : Nat) : List FOffer :=
  if offers.length ≤ count then offers
  else (fillRemaining count offers (diverseSeed offers)).take count

end Duffel

/-! ## Conversation model (`Conversation.js`) -/

/-- The `currentStage` enum of the conversation schema. -/
inductive Stage where
  | initial
  | search
  | selection
  | authentication
  | passenger_details
  | additional_services
  | payment
  | confirmation
deriving DecidableEq

instance : Fintype Stage where
  elems :=
    ⟨[Stage.initial, Stage.search, Stage.selection, Stage.authentication,
      Stage.passenger_details, Stage.additional_services, Stage.payment,
      Stage.confirmation], by decide⟩
  complete := fun x => by cases x <;> decide

/-- The `validTransitions` table, verbatim from `updateStage` /
`canTransitionTo`. -/
def validTransitions : Stage → List Stage
  | .initial => [.search]
  | .search => [.selection]
  | .selection => [.authentication, .passenger_details]
  | .authentication => [.passenger_details, .additional_services]
  | .passenger_details => [.additional_services]
  | .additional_services => [.payment]
  | .payment => [.confirmation]
  | .confirmation => []

/-- Modelled from the spec: the stage graph as §4.5 states it —
`initial → search → selection → {authentication, passenger_details}`,
`authentication → {passenger_details, additional_services}`,
`passenger_details → additional_services → payment → confirmation`,
`confirmation` terminal.  Used only to compare the code's transition
table against the spec's description. -/
def specStageEdges : List (Stage × Stage) :=
  [(.initial, .search),
   (.search, .selection),
   (.selection, .authentication),
   (.selection, .passenger_details),
   (.authentication, .passenger_details),
   (.authentication, .additional_services),
   (.passenger_details, .additional_services),
   (.additional_services, .payment),
   (.payment, .confirmation)]

/-- Modelled from the spec: membership in the spec's edge set. -/
def stageGraphSpec (current targetStage : Stage) : Bool :=
  specStageEdges.contains (current, targetStage)

/-- The flight-search-params subdocument (representative scalar fields of
the schema). -/
structure SearchParamsDoc where
  type : String
  origin : String
  destination : String
  departureDate : Int
  returnDate : Option Int
  cabinClass : String
deriving DecidableEq

/-- A partial update handed to `updateSearchParams` (spread semantics:
present keys override). -/
structure ParamsPatch where
  type : Option String
  origin : Option String
  destination : Option String
  departureDate : Option Int
  returnDate : Option Int
  cabinClass : Option String
deriving DecidableEq

/-- `{ ...this.flightSearchParams, ...params }`. -/
def mergeParams (cur : SearchParamsDoc) (patch : ParamsPatch) : SearchParamsDoc :=
  { type := patch.type.getD cur.type,
    origin := patch.origin.getD cur.origin,
    destination := patch.destination.getD cur.destination,
    departureDate := patch.departureDate.getD cur.departureDate,
    returnDate :=
      match patch.returnDate with
      | some r => some r
      | none => cur.returnDate,
    cabinClass := patch.cabinClass.getD cur.cabinClass }

/-- One entry of the `messages` array. -/
structure ChatMessage where
  role : String
  content : String
  timestamp : Int
deriving DecidableEq

/-- One entry of the `searchHistory` array. -/
structure SearchHistoryItem where
  searchParams : SearchParamsDoc
  searchedAt : Int
deriving DecidableEq

/-- One entry of `refinements.rejectedOffers`. -/
structure RejectedOffer where
  offerId : String
  reason : String
deriving DecidableEq

/-- The `refinements` subdocument. -/
structure Refinements where
  viewedOffers : List String
  rejectedOffers : List RejectedOffer
deriving DecidableEq

/-- The `{ viewedOffers: [] }` object `trackViewedOffer` installs when
`refinements` is absent. -/
def defaultRefinements : Refinements :=
  { viewedOffers := [], rejectedOffers := [] }

/-- Top-level document paths whose mongoose `isModified` flags the
pre-save hook consults or the modelled methods set. -/
inductive DocPath where
  | currentStage
  | flightSearchParams
  | searchHistory
  | messages
  | refinements
  | searchResults
deriving DecidableEq

/-- The conversation document, restricted to the fields the verified
operations touch. -/
structure Conversation where
  sessionId : String
  currentStage : Stage
  flightSearchParams : SearchParamsDoc
  messages : List ChatMessage
  searchResults : List Duffel.FOffer
  searchHistory : List SearchHistoryItem
  refinements : Option Refinements
  updatedAt : Int
  expiresAt : Int
deriving DecidableEq

/-- The `pre('save')` middleware: stamp `updatedAt`, and extend
`expiresAt` by 24h exactly when `messages` or `currentStage` was
modified.  `modifiedPaths` is the set of paths the pending save has
dirty (mongoose `isModified`). -/
def preSave (conv : Conversation) (modifiedPaths : List DocPath) (now : Int) :
    Conversation :=
  let conv := { conv with updatedAt := now }
  if modifiedPaths.contains .messages || modifiedPaths.contains .currentStage then
    { conv with expiresAt := now + dayMs }
  else conv

namespace Conversation

/-- `updateStage(newStage)`: returns the success flag together with the
(possibly unchanged) document; no save is issued by the method itself. -/
def updateStage (conv : Conversation) (newStage : Stage) : Bool × Conversation :=
  let currentStageTransitions := validTransitions conv.currentStage
  if currentStageTransitions.contains newStage then
    (true, { conv with currentStage := newStage })
  else
    (false, conv)

/-- `canTransitionTo(targetStage)`. -/
def canTransitionTo (conv : Conversation) (targetStage : Stage) : Bool :=
  (validTransitions conv.currentStage).contains targetStage

/-- `addMessage(role, content)` followed by its `save()` (which runs the
pre-save hook with `messages` modified). -/
def addMessage (conv : Conversation) (role content : String) (now : Int) :
    Conversation :=
  preSave
    { conv with
      messages := conv.messages ++ [{ role := role, content := content, timestamp := now }] }
    [.messages] now

/-- `updateSearchParams(params)` followed by its `save()`: merge the
patch, push a history entry, trim to the last 10, save with
`flightSearchParams`/`searchHistory` modified. -/
def updateSearchParams (conv : Conversation) (params : ParamsPatch) (now : Int) :
    Conversation :=
  let newParams := mergeParams conv.flightSearchParams params
  let hist := conv.searchHistory ++ [{ searchParams := newParams, searchedAt := now }]
  -- `if (this.searchHistory.length > 10) this.searchHistory = this.searchHistory.slice(-10)`
  let hist := if hist.length > 10 then hist.drop (hist.length - 10) else hist
  preSave
    { conv with flightSearchParams := newParams, searchHistory := hist }
    [.flightSearchParams, .searchHistory] now

/-- `trackViewedOffer(offerId)` followed by its `save()`: install an empty
`refinements` if absent, append the id if unseen, save with
`refinements` modified. -/
def trackViewedOffer (conv : Conversation) (offerId : String) (now : Int) :
    Conversation :=
  let refinements := conv.refinements.getD defaultRefinements
  let refinements :=
    if refinements.viewedOffers.contains offerId then refinements
    else { refinements with viewedOffers := refinements.viewedOffers ++ [offerId] }
  preSave { conv with refinements := some refinements } [.refinements] now

end Conversation


/-! ## Sample values used by witnesses and counterexamples -/

/-- A sample search-params subdocument. -/
def sampleParamsDoc : SearchParamsDoc :=
  { type := "one_way", origin := "AMS", destination := "LHR",
    departureDate := 86400000, returnDate := none, cabinClass := "economy" }

/-- A sample conversation sitting at the `payment` stage. -/
def convAtPayment : Conversation :=
  { sessionId := "sess-1", currentStage := Stage.payment,
    flightSearchParams := sampleParamsDoc, messages := [], searchResults := [],
    searchHistory := [], refinements := none, updatedAt := 0, expiresAt := 123 }

/-- A patch touching only the origin field of the search params. -/
def patchOrigin : ParamsPatch :=
  { type := none, origin := some "CDG", destination := none,
    departureDate := none, returnDate := none, cabinClass := none }

/-- Eleven pairwise-distinct offer ids. -/
def elevenOfferIds : List String :=
  ["o01", "o02", "o03", "o04", "o05", "o06", "o07", "o08", "o09", "o10", "o11"]

/-- Provider stub: the freshly read order costs `200.00 GBP`. -/
def holdOrdersGetStub : String → Duffel.RawOrder :=
  fun orderId => { id := orderId, total_amount := "200.00", total_currency := "GBP" }

/-- Provider stub for payment creation. -/
def holdPaymentsCreateStub : Duffel.PaymentRequest → Duffel.PaymentRecord :=
  fun _ => { id := "pay_1" }

/-- Caller-supplied payment details that disagree with the order. -/
def holdDetails150 : Duffel.HoldPaymentDetails :=
  { type := none, amount := "150.00", currency := "EUR" }

/-- The payment request `payForHoldOrder` actually submits for
`holdDetails150`. -/
def submittedReq150 : Duffel.PaymentRequest :=
  { order_id := "ord_1", type := "balance", amount := "150.00", currency := "EUR" }

/-- A minimal raw offer with the given id. -/
def rawOfferBasic (oid : String) : Duffel.RawOffer :=
  { id := oid, total_amount := "100.00", total_currency := "EUR",
    passengers := [{ id := "pas_" ++ oid }], available_services := none }

/-- The enriched (detail-fetched) form of the same offer. -/
def rawOfferDetailed (oid : String) : Duffel.RawOffer :=
  { rawOfferBasic oid with available_services := some [{ id := "ser_" ++ oid }] }

/-- Detail-fetch stub that fails exactly for `"off_b"`. -/
def detailStub : String → Option Duffel.RawOffer :=
  fun oid => if oid = "off_b" then none else some (rawOfferDetailed oid)

/-- A three-offer batch, pre-enrichment. -/
def threeBasicOffers : List Duffel.RawOffer :=
  [rawOfferBasic "off_a", rawOfferBasic "off_b", rawOfferBasic "off_c"]

/-- An offer carrying three passenger slots. -/
def offerThreePassengers : Duffel.RawOffer :=
  { id := "off_1", total_amount := "300.00", total_currency := "EUR",
    passengers := [{ id := "pas_1" }, { id := "pas_2" }, { id := "pas_3" }],
    available_services := none }

/-- Provider stub returning the three-slot offer. -/
def getOfferStub3 : String → Duffel.RawOffer := fun _ => offerThreePassengers

/-- Provider stub for order creation. -/
def ordersCreateRespStub : Duffel.OrderData → Duffel.RawOrder :=
  fun _ => { id := "ord_new", total_amount := "300.00", total_currency := "EUR" }

/-- A complete booking passenger record. -/
def bookingPassengerMr (nm : String) : Duffel.BookingPassenger :=
  { title := "Mr", firstName := nm, lastName := "Tester", gender := none,
    email := "t@example.com", phoneNumber := "0612345678",
    dateOfBirth := "1990-01-01", passportNumber := none, passportExpiry := "",
    nationality := "" }

/-- A discontinuous multi-city request whose only mismatch is at the
first joint: the main segment lands at `LHR` but the first (and only)
additional stop departs from `CDG`. -/
def discontinuousParams : FlightParams :=
  { type := "multi_city", origin := "JFK", destination := "LHR",
    departureDate := some 86400000, returnDate := none,
    departureTime := none, arrivalTime := none,
    passengers := some { adults := 1, children := 0, infants := 0 },
    maxConnections := none,
    additionalStops := some [{ origin := "CDG", destination := "JFK", date := 259200000 }] }

/-- A three-segment chain with a mismatch at the second joint and a
date violation at the first. -/
def chainParams : FlightParams :=
  { type := "multi_city", origin := "JFK", destination := "LHR",
    departureDate := some 259200000, returnDate := none,
    departureTime := none, arrivalTime := none,
    passengers := some { adults := 1, children := 0, infants := 0 },
    maxConnections := none,
    additionalStops := some
      [{ origin := "LHR", destination := "CDG", date := 172800000 },
       { origin := "AMS", destination := "JFK", date := 86400000 }] }

/-- Criteria with only the departure-time filter set. -/
def timeOnlyCriteria (w : Duffel.FilterTimeWindow) : Duffel.FilterCriteria :=
  { departureTime := some w, maxConnections := none, airlines := none,
    maxPrice := none, minPrice := none, maxDuration := none, sort := none }

/-- A one-segment sample leg. -/
def segKL : Duffel.FSegment :=
  { airline := { name := "KLM", iataCode := "KL" }, flightNumber := "KL123" }

/-- An offer whose single slice departs on the hour `h`. -/
def offerAtHour (oid : String) (h : Nat) : Duffel.FOffer :=
  { id := oid, totalAmount := 100, totalCurrency := "EUR",
    slices := [{ departureDateTime := h * 60, duration := "2h 0m",
                 durationMinutes := 120, segments := [segKL] }] }

/-- The `{from:"10:00", to:"12:00"}` window. -/
def windowTenTwelve : Duffel.FilterTimeWindow :=
  { fromTime := "10:00", toTime := "12:00" }

/-- The spec's overnight window `{from:"23:00", to:"05:00"}`. -/
def redEyeWindow : Duffel.FilterTimeWindow :=
  { fromTime := "23:00", toTime := "05:00" }

/-- An offer departing at `00:30`. -/
def offer0030 : Duffel.FOffer :=
  { id := "off_redeye", totalAmount := 120, totalCurrency := "EUR",
    slices := [{ departureDateTime := 30, duration := "7h 0m",
                 durationMinutes := 420, segments := [segKL] }] }

/-- Four offers with pairwise-distinct ids. -/
def fourOffers : List Duffel.FOffer :=
  [offerAtHour "o_a" 6, offerAtHour "o_b" 9, offerAtHour "o_c" 13,
   offerAtHour "o_d" 20]

/-! ## C7 — stage transitions -/

/-- `updateStage` as a decision on list membership in the transition
table. -/
theorem updateStage_eq (conv : Conversation) (t : Stage) :
    conv.updateStage t =
      if t ∈ validTransitions conv.currentStage then
        (true, { conv with currentStage := t })
      else (false, conv) := by
  simp only [Conversation.updateStage]
  by_cases hm : t ∈ validTransitions conv.currentStage
  · rw [if_pos (List.elem_iff.mpr hm), if_pos hm]
  · rw [if_neg (fun hcon => hm (List.elem_iff.mp hcon)), if_neg hm]

/-- C7: `updateStage` succeeds exactly on the edges of the spec's stage
graph; a rejected transition returns `false` and leaves the whole
document unchanged; in particular `payment → selection` is rejected with
the stage unchanged. -/
theorem updateStage_matches_spec_graph :
    (∀ (conv : Conversation) (t : Stage),
      (conv.updateStage t).1 = true ↔ stageGraphSpec conv.currentStage t = true) ∧
    (∀ (conv : Conversation) (t : Stage),
      (conv.updateStage t).1 = false → (conv.updateStage t).2 = conv) ∧
    (∀ conv : Conversation, conv.currentStage = Stage.payment →
      conv.updateStage Stage.selection = (false, conv)) := by
  have htable : ∀ c t : Stage,
      (t ∈ validTransitions c ↔ stageGraphSpec c t = true) := by decide
  refine ⟨?_, ?_, ?_⟩
  · intro conv t
    rw [updateStage_eq]
    by_cases hm : t ∈ validTransitions conv.currentStage
    · rw [if_pos hm]
      simpa using (htable conv.currentStage t).mp hm
    · rw [if_neg hm]
      constructor
      · intro hfalse; cases hfalse
      · intro hspec; exact absurd ((htable conv.currentStage t).mpr hspec) hm
  · intro conv t h
    rw [updateStage_eq] at h ⊢
    by_cases hm : t ∈ validTransitions conv.currentStage
    · rw [if_pos hm] at h; cases h
    · rw [if_neg hm]
  · intro conv h
    rw [updateStage_eq]
    rw [if_neg (by rw [h]; decide)]

/-- Witness for C7 at a concrete conversation: `payment → selection` is
rejected and the document is returned unchanged. -/
theorem updateStage_matches_spec_graph_witness :
    convAtPayment.updateStage Stage.selection = (false, convAtPayment) :=
  updateStage_matches_spec_graph.2.2 convAtPayment rfl

/-! ## C5 — phone-number normalization -/

/-- C5 (failing input): `"+1234567890"` starts with `'+'`, yet
`formatPhoneNumber` still prepends the default country code `31`,
because the `startsWith('+')` test runs after `replace(/\D/g, '')` has
already removed the `'+'`. -/
theorem formatPhoneNumber_prepends_despite_plus :
    Duffel.formatPhoneNumber "+1234567890" = "+311234567890" ∧
    "+1234567890".data.head? = some '+' := by
  constructor <;> rfl

/-! ## C3 — hold-order payment amount -/

/-- C3 (failing input): `payForHoldOrder` does re-read the order, but
the payment it submits carries the caller-supplied amount and currency
(`150.00 EUR`), not the freshly read order's price (`200.00 GBP`). -/
theorem payForHoldOrder_uses_caller_amount :
    (Duffel.payForHoldOrder holdOrdersGetStub holdPaymentsCreateStub
        "ord_1" holdDetails150).2 =
      [Duffel.ProviderCall.ordersGet "ord_1",
       Duffel.ProviderCall.paymentsCreate submittedReq150] ∧
    submittedReq150.amount ≠ (holdOrdersGetStub "ord_1").total_amount ∧
    submittedReq150.currency ≠ (holdOrdersGetStub "ord_1").total_currency := by
  refine ⟨rfl, by decide, by decide⟩

/-! ## C10 — enrichment fan-out -/

/-- C10: the detail-enrichment fan-out returns exactly one offer per
input offer: the detailed form where the fetch succeeds, the basic form
where it fails; no failure removes siblings or fails the batch. -/
theorem enrichOffers_preserves_batch (f : String → Option Duffel.RawOffer)
    (offers : List Duffel.RawOffer) :
    (Duffel.enrichOffers f offers).length = offers.length ∧
    ∀ (i : Nat) (offer : Duffel.RawOffer), offers[i]? = some offer →
      (Duffel.enrichOffers f offers)[i]? =
        some (match f offer.id with
              | some fullOffer => fullOffer
              | none => offer) := by
  constructor
  · simp [Duffel.enrichOffers]
  · intro i offer h
    rw [Duffel.enrichOffers, List.getElem?_map, h]
    rfl

/-- Witness for C10 on the spec's 1-failure-in-3 example: the batch still
has 3 offers, the failed one basic, a succeeded one enriched. -/
theorem enrichOffers_preserves_batch_witness :
    (Duffel.enrichOffers detailStub threeBasicOffers).length = 3 ∧
    (Duffel.enrichOffers detailStub threeBasicOffers)[1]? =
      some (rawOfferBasic "off_b") ∧
    (Duffel.enrichOffers detailStub threeBasicOffers)[0]? =
      some (rawOfferDetailed "off_a") := by
  have h := enrichOffers_preserves_batch detailStub threeBasicOffers
  refine ⟨h.1.trans rfl, ?_, ?_⟩
  · rw [h.2 1 (rawOfferBasic "off_b") rfl]; rfl
  · rw [h.2 0 (rawOfferBasic "off_a") rfl]; rfl

/-! ## C1 — passenger-count mismatch aborts order creation -/

/-- C1: when the passenger array's length differs from the offer's
passenger-slot count, `createOrder` returns the count-mismatch error and
its provider trace consists of the single read (`offers.get`) — no
`orders.create` was issued. -/
theorem createOrder_count_mismatch_aborts
    (getOffer : String → Duffel.RawOffer) (resp : Duffel.OrderData → Duffel.RawOrder)
    (offerId : String) (passengers : List Duffel.BookingPassenger)
    (pd : Duffel.PaymentDetails) (services : List Duffel.ServiceSelection)
    (h : passengers.length ≠ (getOffer offerId).passengers.length) :
    Duffel.createOrder getOffer resp offerId passengers pd services =
      (Except.error ("Passenger count mismatch: expected " ++
          toString (getOffer offerId).passengers.length ++
          ", got " ++ toString passengers.length),
       [Duffel.ProviderCall.offersGet offerId]) := by
  have h' : passengers.length ≠
      ((getOffer offerId).passengers.map Duffel.OfferPassengerRef.id).length := by
    simpa using h
  simp only [Duffel.createOrder]
  rw [if_pos h']
  simp [List.length_map]

/-- Witness for C1 on the spec's 2-versus-3 example. -/
theorem createOrder_count_mismatch_aborts_witness :
    Duffel.createOrder getOfferStub3 ordersCreateRespStub "off_1"
        [bookingPassengerMr "A", bookingPassengerMr "B"] { type := "balance" } [] =
      (Except.error "Passenger count mismatch: expected 3, got 2",
       [Duffel.ProviderCall.offersGet "off_1"]) := by
  have h := createOrder_count_mismatch_aborts getOfferStub3 ordersCreateRespStub "off_1"
      [bookingPassengerMr "A", bookingPassengerMr "B"] { type := "balance" } []
      (by decide)
  rw [h]
  rfl

/-! ## C8 — expiry refresh -/

/-- The pre-save hook never changes `searchHistory`. -/
theorem preSave_searchHistory (conv : Conversation) (mp : List DocPath) (now : Int) :
    (preSave conv mp now).searchHistory = conv.searchHistory := by
  simp only [preSave]
  split <;> rfl

/-- The pre-save hook never changes `refinements`. -/
theorem preSave_refinements (conv : Conversation) (mp : List DocPath) (now : Int) :
    (preSave conv mp now).refinements = conv.refinements := by
  simp only [preSave]
  split <;> rfl

/-- C8 (counterexample): a save whose only modified paths are the flight
search params and the search history — exactly what `updateSearchParams`
produces — leaves `expiresAt` untouched, so a search-params-only
mutation does not extend the session expiry. -/
theorem searchParams_save_leaves_expiry :
    (convAtPayment.updateSearchParams patchOrigin 1000).expiresAt =
      convAtPayment.expiresAt ∧
    convAtPayment.expiresAt ≠ 1000 + dayMs := by
  exact ⟨rfl, by decide⟩

/-- C8 (amended): the pre-save hook refreshes `expiresAt` exactly for
saves that modified `messages` or `currentStage`: `addMessage` (and any
save with the stage dirty) pushes the expiry to `now + 24h`, while
`updateSearchParams` and `trackViewedOffer` leave it unchanged. -/
theorem expiry_refresh_on_messages_or_stage_only :
    (∀ (conv : Conversation) (role content : String) (now : Int),
      (conv.addMessage role content now).expiresAt = now + dayMs) ∧
    (∀ (conv : Conversation) (modifiedPaths : List DocPath) (now : Int),
      DocPath.messages ∈ modifiedPaths ∨ DocPath.currentStage ∈ modifiedPaths →
      (preSave conv modifiedPaths now).expiresAt = now + dayMs) ∧
    (∀ (conv : Conversation) (params : ParamsPatch) (now : Int),
      (conv.updateSearchParams params now).expiresAt = conv.expiresAt) ∧
    (∀ (conv : Conversation) (offerId : String) (now : Int),
      (conv.trackViewedOffer offerId now).expiresAt = conv.expiresAt) := by
  refine ⟨?_, ?_, ?_, ?_⟩
  · intro conv role content now; rfl
  · intro conv mp now h
    have hc : (mp.contains DocPath.messages || mp.contains DocPath.currentStage) = true := by
      rcases h with h | h
      · have hmem : mp.contains DocPath.messages = true := List.elem_iff.mpr h
        rw [hmem, Bool.true_or]
      · have hmem : mp.contains DocPath.currentStage = true := List.elem_iff.mpr h
        rw [hmem, Bool.or_true]
    simp only [preSave]
    rw [if_pos hc]
  · intro conv params now; rfl
  · intro conv offerId now; rfl

/-- Witness for C8 (amended) at a concrete save with the stage dirty. -/
theorem expiry_refresh_on_messages_or_stage_only_witness :
    (preSave convAtPayment [DocPath.currentStage] 5).expiresAt = 5 + dayMs :=
  expiry_refresh_on_messages_or_stage_only.2.1 convAtPayment
    [DocPath.currentStage] 5 (Or.inr (by decide))

/-! ## C9 — bounded histories -/

/-- C9 (counterexample): tracking 11 distinct viewed offers grows
`refinements.viewedOffers` to 11 entries — beyond the fixed 10-entry
window the search history is trimmed to, so viewed-offer tracking is not
"capped similarly". -/
theorem trackViewedOffer_unbounded :
    ((elevenOfferIds.foldl (fun c oid => c.trackViewedOffer oid 0)
        convAtPayment).refinements.map (fun r => r.viewedOffers.length)) =
      some 11 ∧ 10 < 11 := by
  exact ⟨rfl, by decide⟩

/-- C9 (amended): the search history is hard-capped at 10 entries by
`updateSearchParams`, but `trackViewedOffer` only deduplicates: it never
trims, appending every previously unseen id, so the viewed-offer list
has no fixed cap. -/
theorem history_tracking_caps :
    (∀ (conv : Conversation) (params : ParamsPatch) (now : Int),
      (conv.updateSearchParams params now).searchHistory.length ≤ 10) ∧
    (∀ (conv : Conversation) (offerId : String) (now : Int),
      (conv.refinements.getD defaultRefinements).viewedOffers <+:
        ((conv.trackViewedOffer offerId now).refinements.getD
          defaultRefinements).viewedOffers) ∧
    (∀ (conv : Conversation) (offerId : String) (now : Int),
      ((conv.trackViewedOffer offerId now).refinements.getD
          defaultRefinements).viewedOffers =
        if (conv.refinements.getD defaultRefinements).viewedOffers.contains offerId then
          (conv.refinements.getD defaultRefinements).viewedOffers
        else
          (conv.refinements.getD defaultRefinements).viewedOffers ++ [offerId]) := by
  refine ⟨?_, ?_, ?_⟩
  · intro conv params now
    simp only [Conversation.updateSearchParams, preSave_searchHistory]
    split
    · simp only [List.length_drop]
      omega
    · rename_i hle
      simp only [not_lt, List.length_append, List.length_singleton] at hle ⊢
      omega
  · intro conv offerId now
    simp only [Conversation.trackViewedOffer, preSave_refinements, Option.getD_some]
    split
    · exact List.prefix_refl _
    · exact List.prefix_append _ _
  · intro conv offerId now
    simp only [Conversation.trackViewedOffer, preSave_refinements, Option.getD_some]
    split <;> rfl

/-! ## C2 — multi-city continuity validation -/

/-- `validateMultiCity` on a present, non-empty stop list is the
concatenation of the per-index loop bodies. -/
theorem validateMultiCity_eq (params : FlightParams) (stops : List MCSegment)
    (hstops : params.additionalStops = some stops) (hne : stops ≠ []) :
    validateMultiCity params =
      (List.range ((mainSegment params :: stops).length - 1)).flatMap
        (segmentPairErrors (mainSegment params :: stops)) := by
  simp only [validateMultiCity, hstops]
  rw [if_neg (by simpa using hne)]

/-- C2 (amended): the continuity error is reported for every adjacent
mismatch from the second pair on (`i ≥ 1`) — the joint between the main
segment and the first additional stop is skipped by the `i > 0` guard —
while the strictly-increasing-dates error is reported for every adjacent
pair, including the first; and every `validateMultiCity` error reaches
the `validateFlightSearch` error list for multi-city params. -/
theorem validateMultiCity_continuity_after_first
    (params : FlightParams) (stops : List MCSegment)
    (hstops : params.additionalStops = some stops) (hne : stops ≠ []) :
    (∀ (i : Nat) (cur nxt : MCSegment),
      1 ≤ i →
      (mainSegment params :: stops)[i]? = some cur →
      (mainSegment params :: stops)[i + 1]? = some nxt →
      cur.destination ≠ nxt.origin →
      continuityError i ∈ validateMultiCity params) ∧
    (∀ (i : Nat) (cur nxt : MCSegment),
      (mainSegment params :: stops)[i]? = some cur →
      (mainSegment params :: stops)[i + 1]? = some nxt →
      nxt.date ≤ cur.date →
      dateSequenceError i ∈ validateMultiCity params) ∧
    (∀ (todayStart now : Int) (e : VError),
      params.type = "multi_city" → e ∈ validateMultiCity params →
      e ∈ (validateFlightSearch params todayStart now).errors) := by
  refine ⟨?_, ?_, ?_⟩
  · intro i cur nxt hi hcur hnxt hmis
    rw [validateMultiCity_eq params stops hstops hne]
    have hlen : i + 1 < (mainSegment params :: stops).length :=
      (List.getElem?_eq_some_iff.mp hnxt).1
    apply List.mem_flatMap.mpr
    refine ⟨i, List.mem_range.mpr (by omega), ?_⟩
    simp only [segmentPairErrors, hcur, hnxt]
    apply List.mem_append_left
    apply List.mem_append_left
    apply List.mem_append_left
    rw [if_pos ⟨by omega, hmis⟩]
    exact List.mem_singleton.mpr rfl
  · intro i cur nxt hcur hnxt hdate
    rw [validateMultiCity_eq params stops hstops hne]
    have hlen : i + 1 < (mainSegment params :: stops).length :=
      (List.getElem?_eq_some_iff.mp hnxt).1
    apply List.mem_flatMap.mpr
    refine ⟨i, List.mem_range.mpr (by omega), ?_⟩
    simp only [segmentPairErrors, hcur, hnxt]
    apply List.mem_append_right
    rw [if_pos hdate]
    exact List.mem_singleton.mpr rfl
  · intro todayStart now e htype he
    simp only [validateFlightSearch]
    apply List.mem_append_left
    apply List.mem_append_left
    apply List.mem_append_right
    rw [if_pos htype]
    exact he

/-- C2 (counterexample): with a first-stop origin (`CDG`) that differs
from the main segment's destination (`LHR`), `validateFlightSearch`
reports no error at all — the continuity check skips the first joint. -/
theorem validateFlightSearch_misses_first_joint :
    (validateFlightSearch discontinuousParams 0 0).errors = [] ∧
    validateMultiCity discontinuousParams = [] ∧
    discontinuousParams.destination = "LHR" ∧
    discontinuousParams.additionalStops =
      some [{ origin := "CDG", destination := "JFK", date := 259200000 }] ∧
    ("LHR" : String) ≠ "CDG" := by
  refine ⟨rfl, rfl, rfl, rfl, by decide⟩

/-- Witness for C2 (amended) on the three-segment chain: the `CDG`/`AMS`
mismatch at the second joint and the non-increasing first date pair are
both reported, and the continuity error surfaces through
`validateFlightSearch`. -/
theorem validateMultiCity_continuity_after_first_witness :
    continuityError 1 ∈ validateMultiCity chainParams ∧
    dateSequenceError 0 ∈ validateMultiCity chainParams ∧
    continuityError 1 ∈ (validateFlightSearch chainParams 0 0).errors := by
  have h := validateMultiCity_continuity_after_first chainParams
      [{ origin := "LHR", destination := "CDG", date := 172800000 },
       { origin := "AMS", destination := "JFK", date := 86400000 }] rfl (by decide)
  refine ⟨?_, ?_, ?_⟩
  · exact h.1 1 ⟨"LHR", "CDG", 172800000⟩ ⟨"AMS", "JFK", 86400000⟩
      (by decide) rfl rfl (by decide)
  · exact h.2.1 0 (mainSegment chainParams) ⟨"LHR", "CDG", 172800000⟩
      rfl rfl (by decide)
  · exact h.2.2 0 0 (continuityError 1) rfl
      (h.1 1 ⟨"LHR", "CDG", 172800000⟩ ⟨"AMS", "JFK", 86400000⟩
        (by decide) rfl rfl (by decide))

/-! ## C4 — departure-time window filter -/

/-- With only the time filter set, `filterOffers` is exactly the time
predicate. -/
theorem filterOffers_timeOnly (offers : List Duffel.FOffer)
    (w : Duffel.FilterTimeWindow) :
    Duffel.filterOffers offers (timeOnlyCriteria w) =
      offers.filter (fun offer =>
        let hour := Duffel.dateGetHours (Duffel.firstSliceDepartureMinutes offer)
        let fromHour := Duffel.parseHourStr w.fromTime
        let toHour := Duffel.parseHourStr w.toTime
        if toHour < fromHour then decide (hour ≥ fromHour) || decide (hour ≤ toHour)
        else decide (hour ≥ fromHour) && decide (hour ≤ toHour)) := rfl

/-- C4 (amended): when the to-hour is below the from-hour the window
wraps midnight and keeps exactly the offers with `hour ≥ from` OR
`hour ≤ to`; when the from-hour is strictly below the to-hour the kept
window is the closed interval `hour ≥ from` AND `hour ≤ to` — inclusive
of the to-hour, not the half-open `[from, to)`. -/
theorem filterOffers_time_window (offers : List Duffel.FOffer)
    (w : Duffel.FilterTimeWindow) (o : Duffel.FOffer) :
    (Duffel.parseHourStr w.toTime < Duffel.parseHourStr w.fromTime →
      (o ∈ Duffel.filterOffers offers (timeOnlyCriteria w) ↔
        o ∈ offers ∧
          (Duffel.parseHourStr w.fromTime ≤
              Duffel.dateGetHours (Duffel.firstSliceDepartureMinutes o) ∨
            Duffel.dateGetHours (Duffel.firstSliceDepartureMinutes o) ≤
              Duffel.parseHourStr w.toTime))) ∧
    (Duffel.parseHourStr w.fromTime < Duffel.parseHourStr w.toTime →
      (o ∈ Duffel.filterOffers offers (timeOnlyCriteria w) ↔
        o ∈ offers ∧
          (Duffel.parseHourStr w.fromTime ≤
              Duffel.dateGetHours (Duffel.firstSliceDepartureMinutes o) ∧
            Duffel.dateGetHours (Duffel.firstSliceDepartureMinutes o) ≤
              Duffel.parseHourStr w.toTime))) := by
  constructor
  · intro hwrap
    simp [filterOffers_timeOnly, List.mem_filter, hwrap]
  · intro hlt
    have hnot : ¬ (Duffel.parseHourStr w.toTime < Duffel.parseHourStr w.fromTime) := by
      omega
    simp [filterOffers_timeOnly, List.mem_filter, hnot]

/-- C4 (counterexample): with window `10:00`–`12:00` (no wrap), an offer
departing at hour 12 — exactly the to-hour — is kept by `filterOffers`,
so the non-wrapping window is not the half-open `[from, to)` the claim
states (which would require `12 < 12`). -/
theorem filterOffers_keeps_to_hour :
    Duffel.filterOffers [offerAtHour "off_noon" 12] (timeOnlyCriteria windowTenTwelve) =
      [offerAtHour "off_noon" 12] ∧
    Duffel.dateGetHours
      (Duffel.firstSliceDepartureMinutes (offerAtHour "off_noon" 12)) = 12 ∧
    Duffel.parseHourStr windowTenTwelve.toTime = 12 ∧
    ¬ (12 < 12) := by
  refine ⟨rfl, rfl, rfl, by decide⟩

/-- Witness for C4 on the spec's overnight example: `23:00`–`05:00`
keeps the `00:30` departure and drops the `12:00` one. -/
theorem filterOffers_time_window_witness :
    Duffel.parseHourStr redEyeWindow.toTime <
      Duffel.parseHourStr redEyeWindow.fromTime ∧
    offer0030 ∈ Duffel.filterOffers [offer0030, offerAtHour "off_noon2" 12]
      (timeOnlyCriteria redEyeWindow) ∧
    offerAtHour "off_noon2" 12 ∉ Duffel.filterOffers [offer0030, offerAtHour "off_noon2" 12]
      (timeOnlyCriteria redEyeWindow) := by
  refine ⟨by decide, ?_, ?_⟩
  · exact ((filterOffers_time_window [offer0030, offerAtHour "off_noon2" 12]
        redEyeWindow offer0030).1 (by decide)).mpr ⟨by decide, Or.inr (by decide)⟩
  · intro hmem
    have h := ((filterOffers_time_window [offer0030, offerAtHour "off_noon2" 12]
        redEyeWindow (offerAtHour "off_noon2" 12)).1 (by decide)).mp hmem
    exact absurd h.2 (by decide)

/-! ## C6 — diverse selection -/

/-- `hasOfferId` is membership of the id among the selected ids. -/
theorem hasOfferId_iff (sel : List Duffel.FOffer) (o : Duffel.FOffer) :
    Duffel.hasOfferId sel o = true ↔ o.id ∈ sel.map Duffel.FOffer.id := by
  simp [Duffel.hasOfferId, List.any_eq_true, List.mem_map, beq_iff_eq]

/-- Anything in a `pickStep` result comes from the selection or the
sorted candidate list. -/
theorem pickStep_sub (sorted sel : List Duffel.FOffer) :
    ∀ x ∈ Duffel.pickStep sorted sel, x ∈ sel ∨ x ∈ sorted := by
  intro x hx
  rcases hf : sorted.find? (fun o => !Duffel.hasOfferId sel o) with _ | f
  · rw [Duffel.pickStep, hf] at hx
    exact Or.inl hx
  · rw [Duffel.pickStep, hf] at hx
    rcases List.mem_append.mp hx with h' | h'
    · exact Or.inl h'
    · rw [List.mem_singleton.mp h']
      exact Or.inr (List.mem_of_find?_eq_some hf)

/-- `pickStep` preserves distinctness of the selected ids. -/
theorem pickStep_nodup (sorted sel : List Duffel.FOffer)
    (h : (sel.map Duffel.FOffer.id).Nodup) :
    ((Duffel.pickStep sorted sel).map Duffel.FOffer.id).Nodup := by
  rcases hf : sorted.find? (fun o => !Duffel.hasOfferId sel o) with _ | f
  · rw [Duffel.pickStep, hf]; exact h
  · rw [Duffel.pickStep, hf]
    have hp := List.find?_some hf
    have hnotin : f.id ∉ sel.map Duffel.FOffer.id := by
      intro hm
      have := (hasOfferId_iff sel f).mpr hm
      rw [this] at hp
      cases hp
    rw [List.map_append]
    refine List.Nodup.append h (List.nodup_singleton _) ?_
    intro a ha hb
    rw [List.mem_singleton.mp hb] at ha
    exact hnotin ha

/-- `pickStep` appends, so a cons-shaped selection stays cons-shaped
with the same head. -/
theorem pickStep_cons (sorted : List Duffel.FOffer) (p : Duffel.FOffer)
    (rest : List Duffel.FOffer) :
    ∃ rest2, Duffel.pickStep sorted (p :: rest) = p :: rest2 := by
  rcases hf : sorted.find? (fun o => !Duffel.hasOfferId (p :: rest) o) with _ | f
  · exact ⟨rest, by simp [Duffel.pickStep, hf]⟩
  · exact ⟨rest ++ [f], by simp [Duffel.pickStep, hf]⟩

/-- The selection is a prefix of the fill loop's result. -/
theorem fillRemaining_prefix (count : Nat) (offers sel : List Duffel.FOffer) :
    sel <+: Duffel.fillRemaining count offers sel := by
  induction offers generalizing sel with
  | nil => exact List.prefix_refl _
  | cons o rest ih =>
    simp only [Duffel.fillRemaining]
    split
    · exact List.prefix_refl _
    · split
      · exact ih sel
      · exact (List.prefix_append sel [o]).trans (ih (sel ++ [o]))

/-- The fill loop preserves distinctness of the selected ids. -/
theorem fillRemaining_nodup (count : Nat) (offers sel : List Duffel.FOffer)
    (h : (sel.map Duffel.FOffer.id).Nodup) :
    ((Duffel.fillRemaining count offers sel).map Duffel.FOffer.id).Nodup := by
  induction offers generalizing sel with
  | nil => exact h
  | cons o rest ih =>
    simp only [Duffel.fillRemaining]
    split
    · exact h
    · split
      · exact ih sel h
      · rename_i hno
        apply ih
        rw [List.map_append]
        refine List.Nodup.append h (List.nodup_singleton _) ?_
        intro a ha hb
        rw [List.mem_singleton.mp hb] at ha
        exact hno ((hasOfferId_iff sel o).mpr ha)

/-- Either the fill loop reached the requested count, or it absorbed
every offer id. -/
theorem fillRemaining_length (count : Nat) (offers sel : List Duffel.FOffer) :
    count ≤ (Duffel.fillRemaining count offers sel).length ∨
      ∀ o ∈ offers,
        o.id ∈ (Duffel.fillRemaining count offers sel).map Duffel.FOffer.id := by
  induction offers generalizing sel with
  | nil =>
    right
    intro o ho
    exact absurd ho (List.not_mem_nil o)
  | cons o rest ih =>
    simp only [Duffel.fillRemaining]
    split
    · rename_i hcount
      left
      exact hcount
    · split
      · rename_i hin
        rcases ih sel with h | h
        · left; exact h
        · right
          intro x hx
          rcases List.mem_cons.mp hx with rfl | hx'
          · obtain ⟨t, ht⟩ := fillRemaining_prefix count rest sel
            have hm : x.id ∈ sel.map Duffel.FOffer.id := (hasOfferId_iff sel x).mp hin
            rw [← ht, List.map_append]
            exact List.mem_append_left _ hm
          · exact h x hx'
      · rcases ih (sel ++ [o]) with h | h
        · left; exact h
        · right
          intro x hx
          rcases List.mem_cons.mp hx with rfl | hx'
          · obtain ⟨t, ht⟩ := fillRemaining_prefix count rest (sel ++ [x])
            have hm : x.id ∈ (sel ++ [x]).map Duffel.FOffer.id := by simp
            rw [← ht, List.map_append]
            exact List.mem_append_left _ hm
          · exact h x hx'

/-- Subset counting for duplicate-free lists. -/
theorem nodup_subset_length_le {α : Type} [DecidableEq α] {l₁ l₂ : List α}
    (h₁ : l₁.Nodup) (hsub : l₁ ⊆ l₂) : l₁.length ≤ l₂.length := by
  calc l₁.length = l₁.toFinset.card := (List.toFinset_card_of_nodup h₁).symm
    _ ≤ l₂.toFinset.card := by
        apply Finset.card_le_card
        intro a ha
        rw [List.mem_toFinset] at ha ⊢
        exact hsub ha
    _ ≤ l₂.length := List.toFinset_card_le l₂

/-- When the offers' ids are distinct and there are more offers than the
requested count, the fill loop reaches the count. -/
theorem fillRemaining_count_le (count : Nat) (offers sel : List Duffel.FOffer)
    (hoff : (offers.map Duffel.FOffer.id).Nodup) (hlt : count < offers.length) :
    count ≤ (Duffel.fillRemaining count offers sel).length := by
  rcases fillRemaining_length count offers sel with h | h
  · exact h
  · have hsubset : offers.map Duffel.FOffer.id ⊆
        (Duffel.fillRemaining count offers sel).map Duffel.FOffer.id := by
      intro a ha
      rcases List.mem_map.mp ha with ⟨o, ho, rfl⟩
      exact h o ho
    have hlen := nodup_subset_length_le hoff hsubset
    simp only [List.length_map] at hlen
    omega

/-- The seeding phase starts with a globally cheapest offer, stays
inside the offer list, and keeps its ids distinct. -/
theorem diverseSeed_spec (offers : List Duffel.FOffer) (hne : offers ≠ []) :
    ∃ p tail, Duffel.diverseSeed offers = p :: tail ∧
      (∀ x ∈ Duffel.diverseSeed offers, x ∈ offers) ∧
      ((Duffel.diverseSeed offers).map Duffel.FOffer.id).Nodup ∧
      p ∈ offers ∧ ∀ q ∈ offers, p.totalAmount ≤ q.totalAmount := by
  cases hbp : offers.mergeSort (fun a b => decide (a.totalAmount ≤ b.totalAmount)) with
  | nil =>
    exfalso
    have hperm := List.mergeSort_perm offers
      (fun a b => decide (a.totalAmount ≤ b.totalAmount))
    rw [hbp] at hperm
    exact hne (hperm.symm.eq_nil)
  | cons p tl =>
    have hperm := List.mergeSort_perm offers
      (fun a b => decide (a.totalAmount ≤ b.totalAmount))
    rw [hbp] at hperm
    have hpmem : p ∈ offers := hperm.mem_iff.mp (List.mem_cons_self p tl)
    have hsorted : List.Pairwise
        (fun a b : Duffel.FOffer => decide (a.totalAmount ≤ b.totalAmount) = true)
        (offers.mergeSort (fun a b => decide (a.totalAmount ≤ b.totalAmount))) :=
      List.sorted_mergeSort
        (fun a b c hab hbc => by
          simp only [decide_eq_true_eq] at hab hbc ⊢
          omega)
        (fun a b => by
          simp only [Bool.or_eq_true, decide_eq_true_eq]
          exact Int.le_total a.totalAmount b.totalAmount)
        offers
    rw [hbp] at hsorted
    have hpmin : ∀ q ∈ offers, p.totalAmount ≤ q.totalAmount := by
      intro q hq
      have hq' : q ∈ p :: tl := hperm.mem_iff.mpr hq
      rcases List.mem_cons.mp hq' with rfl | hq''
      · exact le_refl _
      · have := (List.pairwise_cons.mp hsorted).1 q hq''
        simpa using this
    simp only [Duffel.diverseSeed, hbp, List.head?_cons]
    obtain ⟨r1, hr1⟩ := pickStep_cons
      (offers.mergeSort
        (fun a b => decide (Duffel.offerDurationMinutes a ≤ Duffel.offerDurationMinutes b)))
      p []
    rw [hr1]
    obtain ⟨r2, hr2⟩ := pickStep_cons
      (offers.mergeSort
        (fun a b =>
          decide (Duffel.firstSliceDepartureMinutes a ≤ Duffel.firstSliceDepartureMinutes b)))
      p r1
    rw [hr2]
    refine ⟨p, r2, rfl, ?_, ?_, hpmem, hpmin⟩
    · intro x hx
      rw [← hr2] at hx
      rcases pickStep_sub _ _ x hx with hx' | hx'
      · rw [← hr1] at hx'
        rcases pickStep_sub _ _ x hx' with hx'' | hx''
        · rw [List.mem_singleton.mp hx'']
          exact hpmem
        · exact List.mem_mergeSort.mp hx''
      · exact List.mem_mergeSort.mp hx'
    · rw [← hr2, ← hr1]
      apply pickStep_nodup
      apply pickStep_nodup
      exact List.nodup_singleton _

/-- C6 (amended): for offers with pairwise-distinct ids and `n ≥ 1`,
`selectDiverseOffers` returns exactly `min n (len offers)` offers with
no duplicate ids; when `len ≤ n` it returns the whole list; when
`len > n` the result contains a globally cheapest offer.  (For `n = 0`
the result is empty, so the cheapest-offer guarantee needs `n ≥ 1`.) -/
theorem selectDiverseOffers_spec (offers : List Duffel.FOffer) (count : Nat)
    (hids : (offers.map Duffel.FOffer.id).Nodup) (hcount : 1 ≤ count) :
    (Duffel.selectDiverseOffers offers count).length = min count offers.length ∧
    ((Duffel.selectDiverseOffers offers count).map Duffel.FOffer.id).Nodup ∧
    (offers.length ≤ count → Duffel.selectDiverseOffers offers count = offers) ∧
    (count < offers.length →
      ∃ o, o ∈ Duffel.selectDiverseOffers offers count ∧ o ∈ offers ∧
        ∀ q ∈ offers, o.totalAmount ≤ q.totalAmount) := by
  by_cases hle : offers.length ≤ count
  · have heq : Duffel.selectDiverseOffers offers count = offers := by
      simp [Duffel.selectDiverseOffers, hle]
    exact ⟨by rw [heq, Nat.min_eq_right hle], by rw [heq]; exact hids,
      fun _ => heq, fun hlt => absurd hlt (by omega)⟩
  · push_neg at hle
    have hlt : count < offers.length := hle
    have hne : offers ≠ [] := by
      intro h
      subst h
      simp at hlt
    obtain ⟨p, tail, hseed, hsub, hnodup, hpmem, hpmin⟩ := diverseSeed_spec offers hne
    have hsel : Duffel.selectDiverseOffers offers count =
        (Duffel.fillRemaining count offers (Duffel.diverseSeed offers)).take count := by
      simp only [Duffel.selectDiverseOffers]
      rw [if_neg (by omega)]
    have hScount := fillRemaining_count_le count offers (Duffel.diverseSeed offers) hids hlt
    refine ⟨?_, ?_, fun hle' => absurd hle' (by omega), fun _ => ?_⟩
    · rw [hsel, List.length_take]
      omega
    · rw [hsel, List.map_take]
      exact (fillRemaining_nodup count offers _ hnodup).sublist (List.take_sublist _ _)
    · obtain ⟨t, ht⟩ := fillRemaining_prefix count offers (Duffel.diverseSeed offers)
      have hS : Duffel.fillRemaining count offers (Duffel.diverseSeed offers) =
          p :: (tail ++ t) := by
        rw [← ht, hseed, List.cons_append]
      refine ⟨p, ?_, hpmem, hpmin⟩
      rw [hsel, hS]
      cases count with
      | zero => omega
      | succ n =>
        rw [List.take_succ_cons]
        exact List.mem_cons_self _ _

/-- C6 (counterexample): with `n = 0` and a non-empty offer list (so
`len > n`), the result is empty, so it cannot include the globally
cheapest offer as the claim requires for every `n`. -/
theorem selectDiverseOffers_zero_empty :
    Duffel.selectDiverseOffers fourOffers 0 = [] ∧ fourOffers ≠ [] := by
  constructor
  · simp [Duffel.selectDiverseOffers, fourOffers]
  · simp [fourOffers]

/-- Witness for C6 (amended) on four distinct offers with `n = 2`. -/
theorem selectDiverseOffers_spec_witness :
    (Duffel.selectDiverseOffers fourOffers 2).length = 2 ∧
    ((Duffel.selectDiverseOffers fourOffers 2).map Duffel.FOffer.id).Nodup := by
  have h := selectDiverseOffers_spec fourOffers 2 (by decide) (by decide)
  exact ⟨h.1.trans (by decide), h.2.1⟩

end TravelAgent
